import Mathlib

/-!
Verification development for the Track-Check snapshot-diff-notify pipeline
(`src/TrackCheck.py`).

The Python program is embedded shallowly:

* the per-user SQLite table `liked_songs` (schema in
  `setup_user_songs_database`, lines 64-72: `track_id TEXT PRIMARY KEY`,
  `track_name`, `artist_name`, `added_at`, `fetch_date`) is a list of `Row`
  values in insertion order (SQLite appends replaced rows at the end, which
  `upsert` mirrors with filter-then-append);
* `save_tracks_to_db` (lines 128-138) folds `INSERT OR REPLACE` over the
  fetched track list;
* `compare_tracks` (lines 140-184) is a pure function of the store returning
  either `notEnoughData` or the `send_email` call it performs, plus the
  (unmodified, the function only runs SELECTs) store;
* `get_liked_songs` (lines 93-126) is fuel-indexed iteration over a page
  oracle `svc : Nat → Option Page`; `none` from the oracle stands for a
  raised exception of the underlying client, which the code turns into
  `sys.exit(1)`;
* `send_email` (lines 76-91) wraps the SMTP transport in try/except, so a
  transport failure becomes a logged outcome instead of an exception;
* `runUsers` is the per-user loop of `main` (lines 186-210).
-/

structure Track where
  id : String
  name : String
  artist : String
  added_at : String
deriving DecidableEq

structure Row where
  track_id : String
  track_name : String
  artist_name : String
  added_at : String
  fetch_date : String
deriving DecidableEq

abbrev Store := List Row

/-- The row written for one track by `save_tracks_to_db` (line 133-136). -/
def toRow (t : Track) (fetch_date : String) : Row :=
  { track_id := t.id, track_name := t.name, artist_name := t.artist,
    added_at := t.added_at, fetch_date := fetch_date }

/-- One `INSERT OR REPLACE` keyed on the `track_id` primary key: the
conflicting row (if any) is deleted and the new row appended. -/
def upsert (s : Store) (r : Row) : Store :=
  s.filter (fun x => x.track_id != r.track_id) ++ [r]

/-- `save_tracks_to_db` (lines 128-138): one upsert per fetched track, in
list order, all under the single `fetch_date` of the run. -/
def save_tracks_to_db (s : Store) (tracks : List Track) (fetch_date : String) : Store :=
  tracks.foldl (fun acc t => upsert acc (toRow t fetch_date)) s

/-- `SELECT track_id FROM liked_songs WHERE fetch_date = d`. -/
def idsOn (s : Store) (d : String) : List String :=
  (s.filter (fun r => r.fetch_date == d)).map (fun r => r.track_id)

/-- The WHERE clause of the two diff queries of `compare_tracks`
(lines 154-169): rows under `dX` whose `track_id` is not under `dY`. -/
def exclusiveRows (s : Store) (dX dY : String) : List Row :=
  s.filter (fun r => r.fetch_date == dX && !((idsOn s dY).contains r.track_id))

/-- The `SELECT track_name, artist_name` projection of the diff queries. -/
def exclusiveTracks (s : Store) (dX dY : String) : List (String × String) :=
  (exclusiveRows s dX dY).map (fun r => (r.track_name, r.artist_name))

/-- Lexicographic comparison of character lists: SQLite's BINARY collation
(a memcmp of the encoded text; on the ASCII dates at hand this is the same
as comparing code points). -/
def ltChars : List Char → List Char → Bool
  | [], [] => false
  | [], _ :: _ => true
  | _ :: _, [] => false
  | a :: as, b :: bs => if a < b then true else if b < a then false else ltChars as bs

/-- BINARY-collation order on the stored `fetch_date` text values. -/
def dateLt (a b : String) : Bool := ltChars a.data b.data

/-- Insertion into a descending-sorted list (SQLite `ORDER BY fetch_date
DESC`). -/
def insertDateDesc (d : String) : List String → List String
  | [] => [d]
  | x :: xs => if dateLt x d then d :: x :: xs else x :: insertDateDesc d xs

/-- Sort a list of date strings in descending order. -/
def sortDatesDesc (l : List String) : List String :=
  l.foldr insertDateDesc []

/-- `SELECT DISTINCT fetch_date FROM liked_songs ORDER BY fetch_date DESC
LIMIT 2` (line 143). -/
def distinctDatesDesc (s : Store) : List String :=
  (sortDatesDesc ((s.map (fun r => r.fetch_date)).dedup)).take 2

/-- String join mirroring Python's `sep.join(list)`. -/
def joinStr (sep : String) : List String → String
  | [] => ""
  | [x] => x
  | x :: y :: rest => x ++ sep ++ joinStr sep (y :: rest)

/-- The email body built by `compare_tracks` (lines 171-181). -/
def renderContent (removed added : List (String × String)) : String :=
  let base := "Hi,\n\nHere are the changes to your Spotify Liked Songs:\n\n"
  let c1 :=
    if !removed.isEmpty then
      base ++ "Removed Tracks:\n" ++
        joinStr "\n" (removed.map (fun t => "- " ++ t.1 ++ " by " ++ t.2)) ++ "\n"
    else
      base ++ "No tracks have been removed.\n"
  if !added.isEmpty then
    c1 ++ "\nAdded Tracks:\n" ++
      joinStr "\n" (added.map (fun t => "+ " ++ t.1 ++ " by " ++ t.2)) ++ "\n"
  else
    c1 ++ "\nNo tracks have been added.\n"

/-- Observable result of `compare_tracks`: either the early return on fewer
than two distinct dates, or the `send_email(email, subject, content)` call
performed at line 184. -/
inductive CompareResult where
  | notEnoughData
  | notified (addr subject content : String)
deriving DecidableEq

/-- `compare_tracks` (lines 140-184). The store is returned unchanged: the
function only issues SELECT statements. -/
def compare_tracks (s : Store) (email : String) : CompareResult × Store :=
  match distinctDatesDesc s with
  | [latest_date, previous_date] =>
    let removed := exclusiveTracks s previous_date latest_date
    let added := exclusiveTracks s latest_date previous_date
    (CompareResult.notified email "Spotify Liked Songs Updates"
      (renderContent removed added), s)
  | _ => (CompareResult.notEnoughData, s)

structure PageItem where
  track_id : String
  track_name : String
  artists : List String
  added_at : String
deriving DecidableEq

/-- One response of `sp.current_user_saved_tracks(limit=50, offset=...)`:
the reported `total` and the page's `items`. -/
structure Page where
  total : Nat
  items : List PageItem
deriving DecidableEq

/-- Field extraction of lines 110-116; indexing the first artist of
`track` raises on an empty artist list, hence the `Option`. -/
def extractTrack (it : PageItem) : Option Track :=
  match it.artists with
  | [] => none
  | a :: _ => some { id := it.track_id, name := it.track_name, artist := a,
                     added_at := it.added_at }

/-- Extraction of every item of a page; any failure aborts the page. -/
def extractTracks (items : List PageItem) : Option (List Track) :=
  match items with
  | [] => some []
  | it :: rest =>
    match extractTrack it, extractTracks rest with
    | some t, some ts => some (t :: ts)
    | _, _ => none

/-- Result of `get_liked_songs`: the accumulated track list on normal
return, or `exit 1` for the `sys.exit(1)` in the except-branch (line 126),
which carries no tracks -- no partial result reaches the caller. -/
inductive FetchResult where
  | success (tracks : List Track)
  | exit (code : Nat)
deriving DecidableEq

/-- The `while True` loop of `get_liked_songs` (lines 100-119), fuel-indexed;
`none` means the fuel ran out before the loop decided. A `none` page from
the oracle models a raised request exception: the surrounding try/except
turns it into `sys.exit(1)`. The reported `total` is only printed, so it is
ignored here. -/
def get_liked_songs_aux (svc : Nat → Option Page) :
    Nat → Nat → List Track → Option FetchResult
  | 0, _, _ => none
  | fuel + 1, offset, acc =>
    match svc offset with
    | none => some (FetchResult.exit 1)
    | some page =>
      if page.items.isEmpty then some (FetchResult.success acc)
      else
        match extractTracks page.items with
        | none => some (FetchResult.exit 1)
        | some ts => get_liked_songs_aux svc fuel (offset + 50) (acc ++ ts)

/-- `get_liked_songs` (lines 93-126): start at offset 0 with no tracks. -/
def get_liked_songs (svc : Nat → Option Page) (fuel : Nat) : Option FetchResult :=
  get_liked_songs_aux svc fuel 0 []

/-- Observable outcome of `send_email` (lines 76-91). -/
inductive SendOutcome where
  | sent
  | errorLogged (msg : String)
deriving DecidableEq

/-- `send_email`: the whole SMTP interaction sits inside try/except, so a
transport failure is caught and logged; the function always returns
normally, never re-raising. -/
def send_email (transport : Except String Unit) : SendOutcome :=
  match transport with
  | Except.ok _ => SendOutcome.sent
  | Except.error e => SendOutcome.errorLogged e

/-- Per-user external collaborators of one `main` loop iteration: the page
oracle of the remote service, the user's `liked_songs_{id}.db` contents,
the delivery address, and the transport's behaviour for this delivery. -/
structure UserData where
  svc : Nat → Option Page
  store : Store
  email : String
  transport : Except String Unit

inductive UserOutcome where
  | skippedNotEnough
  | delivered
  | deliveryFailed (msg : String)
deriving DecidableEq

/-- Result of `main`'s user loop: `exited c` when `sys.exit(c)` fired,
otherwise the per-user outcomes in processing order. -/
inductive RunResult where
  | exited (code : Nat)
  | completed (outcomes : List UserOutcome)
deriving DecidableEq

/-- What one loop iteration of `main` (lines 197-208) does for a user whose
fetch succeeds: save under today's date, diff, and if a report was produced
deliver it through `send_email`. -/
def userOutcome (fuel : Nat) (today : String) (u : UserData) : UserOutcome :=
  match get_liked_songs u.svc fuel with
  | some (FetchResult.success ts) =>
    match (compare_tracks (save_tracks_to_db u.store ts today) u.email).1 with
    | CompareResult.notEnoughData => UserOutcome.skippedNotEnough
    | CompareResult.notified _ _ _ =>
      match send_email u.transport with
      | SendOutcome.sent => UserOutcome.delivered
      | SendOutcome.errorLogged e => UserOutcome.deliveryFailed e
  | _ => UserOutcome.skippedNotEnough

/-- The user loop of `main` (lines 196-208). A `sys.exit` raised inside
`get_liked_songs` terminates the whole process, so it short-circuits the
remaining users. -/
def runUsers (fuel : Nat) (today : String) : List UserData → Option RunResult
  | [] => some (RunResult.completed [])
  | u :: rest =>
    match get_liked_songs u.svc fuel with
    | none => none
    | some (FetchResult.exit c) => some (RunResult.exited c)
    | some (FetchResult.success _) =>
      match runUsers fuel today rest with
      | none => none
      | some (RunResult.exited c) => some (RunResult.exited c)
      | some (RunResult.completed l) =>
        some (RunResult.completed (userOutcome fuel today u :: l))

/-! ### Helper lemmas about the date query -/

theorem length_insertDateDesc (d : String) :
    ∀ l : List String, (insertDateDesc d l).length = l.length + 1
  | [] => rfl
  | x :: xs => by
    unfold insertDateDesc
    cases h : dateLt x d
    · simp [h, length_insertDateDesc d xs]
    · simp [h]

theorem length_sortDatesDesc : ∀ l : List String, (sortDatesDesc l).length = l.length
  | [] => rfl
  | x :: xs => by
    show (insertDateDesc x (sortDatesDesc xs)).length = xs.length + 1
    rw [length_insertDateDesc, length_sortDatesDesc xs]

theorem length_distinctDatesDesc (s : Store) :
    (distinctDatesDesc s).length =
      min 2 ((s.map (fun r => r.fetch_date)).dedup).length := by
  unfold distinctDatesDesc
  rw [List.length_take, length_sortDatesDesc]

/-! ### C5 -/

/-- C5: for every store with fewer than two distinct fetch dates the diff
operation returns early with `notEnoughData`: no report is produced, no
notification is sent, and the store comes back unchanged. -/
theorem c5_single_date_not_enough (s : Store) (email : String)
    (h : ((s.map (fun r => r.fetch_date)).dedup).length < 2) :
    compare_tracks s email = (CompareResult.notEnoughData, s) := by
  have hlen : (distinctDatesDesc s).length < 2 := by
    rw [length_distinctDatesDesc]
    omega
  match hd : distinctDatesDesc s with
  | [] => unfold compare_tracks; rw [hd]
  | [x] => unfold compare_tracks; rw [hd]
  | x :: y :: rest => rw [hd] at hlen; simp at hlen; omega

def store1date : Store := [⟨"A", "NameA", "ArtistA", "t1", "2024-01-01"⟩]

/-- Witness for C5 at a one-date store. -/
theorem c5_single_date_not_enough_witness :
    ((store1date.map (fun r => r.fetch_date)).dedup).length < 2 ∧
      compare_tracks store1date "user@example.com" =
        (CompareResult.notEnoughData, store1date) :=
  ⟨by decide, c5_single_date_not_enough store1date "user@example.com" (by decide)⟩

/-! ### C10 -/

def storeNoChanges : Store :=
  [⟨"X", "Song", "Artist", "t1", "2024-03-01"⟩,
   ⟨"X", "Song", "Artist", "t2", "2024-03-02"⟩]

/-- C10: whenever at least two distinct fetch dates are stored,
`compare_tracks` always reaches the `send_email` call -- even when both the
removed and the added list are empty, as the second conjunct shows on a
store whose diff is empty: the "no changes" report is still sent. -/
theorem c10_two_dates_always_notify :
    (∀ (s : Store) (email : String),
      2 ≤ ((s.map (fun r => r.fetch_date)).dedup).length →
      ∃ content, compare_tracks s email =
        (CompareResult.notified email "Spotify Liked Songs Updates" content, s)) ∧
    compare_tracks storeNoChanges "user@example.com" =
      (CompareResult.notified "user@example.com" "Spotify Liked Songs Updates"
        "Hi,\n\nHere are the changes to your Spotify Liked Songs:\n\nNo tracks have been removed.\n\nNo tracks have been added.\n",
       storeNoChanges) := by
  constructor
  · intro s email h
    have hlen : (distinctDatesDesc s).length = 2 := by
      rw [length_distinctDatesDesc]
      omega
    match hd : distinctDatesDesc s with
    | [] => rw [hd] at hlen; simp at hlen
    | [x] => rw [hd] at hlen; simp at hlen
    | [x, y] =>
      refine ⟨renderContent (exclusiveTracks s y x) (exclusiveTracks s x y), ?_⟩
      unfold compare_tracks
      rw [hd]
    | x :: y :: z :: rest => rw [hd] at hlen; simp at hlen
  · decide

/-- Witness for C10 at the empty-diff store. -/
theorem c10_two_dates_always_notify_witness :
    ∃ content, compare_tracks storeNoChanges "user@example.com" =
      (CompareResult.notified "user@example.com" "Spotify Liked Songs Updates"
        content, storeNoChanges) :=
  c10_two_dates_always_notify.1 storeNoChanges "user@example.com" (by decide)

/-! ### C1 -/

/-- A `track_id` appears under a date when some stored row carries both. -/
def appearsOn (s : Store) (d i : String) : Prop :=
  ∃ r ∈ s, r.fetch_date = d ∧ r.track_id = i

theorem mem_idsOn (s : Store) (d i : String) : i ∈ idsOn s d ↔ appearsOn s d i := by
  unfold idsOn appearsOn
  simp [List.mem_map, List.mem_filter, and_assoc]

/-- A store holding the two snapshots of the spec's example: track ids
A, B, C under the earlier date and B, C, D under the later one. -/
def storeC1 : Store :=
  [⟨"A", "NameA", "ArtistA", "t", "2024-01-01"⟩,
   ⟨"B", "NameB", "ArtistB", "t", "2024-01-01"⟩,
   ⟨"C", "NameC", "ArtistC", "t", "2024-01-01"⟩,
   ⟨"B", "NameB", "ArtistB", "t", "2024-01-02"⟩,
   ⟨"C", "NameC", "ArtistC", "t", "2024-01-02"⟩,
   ⟨"D", "NameD", "ArtistD", "t", "2024-01-02"⟩]

/-- C1: the diff queries compute exact set differences of the ids stored
under the two dates: a pair is listed as removed exactly when it names a
row under the previous date whose id appears under no row of the latest
date (and symmetrically for added); a row whose id appears under both dates
is selected by neither query; and on the example store (previous date ids
A,B,C; latest date ids B,C,D) the diff yields removed A and added D only. -/
theorem c1_diff_is_exact_set_difference :
    (∀ (s : Store) (dX dY n a : String),
      ((n, a) ∈ exclusiveTracks s dX dY ↔
        ∃ r ∈ s, r.fetch_date = dX ∧ ¬ appearsOn s dY r.track_id ∧
          r.track_name = n ∧ r.artist_name = a)) ∧
    (∀ (s : Store) (dX dY : String) (r : Row), r ∈ s →
      appearsOn s dX r.track_id → appearsOn s dY r.track_id →
      r ∉ exclusiveRows s dX dY ∧ r ∉ exclusiveRows s dY dX) ∧
    exclusiveTracks storeC1 "2024-01-01" "2024-01-02" = [("NameA", "ArtistA")] ∧
    exclusiveTracks storeC1 "2024-01-02" "2024-01-01" = [("NameD", "ArtistD")] ∧
    compare_tracks storeC1 "user@example.com" =
      (CompareResult.notified "user@example.com" "Spotify Liked Songs Updates"
        "Hi,\n\nHere are the changes to your Spotify Liked Songs:\n\nRemoved Tracks:\n- NameA by ArtistA\n\nAdded Tracks:\n+ NameD by ArtistD\n",
       storeC1) := by
  refine ⟨?_, ?_, by decide, by decide, by decide⟩
  · intro s dX dY n a
    unfold exclusiveTracks exclusiveRows
    simp [List.mem_map, List.mem_filter, mem_idsOn, and_assoc]
  · intro s dX dY r hr h1 h2
    constructor
    · intro hmem
      rw [exclusiveRows, List.mem_filter] at hmem
      rcases hmem with ⟨-, hcond⟩
      simp [mem_idsOn] at hcond
      exact hcond.2 h2
    · intro hmem
      rw [exclusiveRows, List.mem_filter] at hmem
      rcases hmem with ⟨-, hcond⟩
      simp [mem_idsOn] at hcond
      exact hcond.2 h1

/-- Witness for C1: in the example store the id B appears under both dates,
and its rows are selected by neither diff query. -/
theorem c1_diff_is_exact_set_difference_witness :
    (⟨"B", "NameB", "ArtistB", "t", "2024-01-01"⟩ : Row) ∉
        exclusiveRows storeC1 "2024-01-01" "2024-01-02" ∧
      (⟨"B", "NameB", "ArtistB", "t", "2024-01-01"⟩ : Row) ∉
        exclusiveRows storeC1 "2024-01-02" "2024-01-01" :=
  c1_diff_is_exact_set_difference.2.1 storeC1 "2024-01-01" "2024-01-02"
    ⟨"B", "NameB", "ArtistB", "t", "2024-01-01"⟩ (by decide)
    ⟨⟨"B", "NameB", "ArtistB", "t", "2024-01-01"⟩, by decide, rfl, rfl⟩
    ⟨⟨"B", "NameB", "ArtistB", "t", "2024-01-02"⟩, by decide, rfl, rfl⟩

/-! ### Lemmas about `save_tracks_to_db` -/

theorem save_nil (s : Store) (d : String) : save_tracks_to_db s [] d = s := rfl

theorem save_cons (s : Store) (t : Track) (ts : List Track) (d : String) :
    save_tracks_to_db s (t :: ts) d = save_tracks_to_db (upsert s (toRow t d)) ts d := rfl

theorem mem_upsert (s : Store) (r r' : Row) :
    r' ∈ upsert s r ↔ (r' ∈ s ∧ r'.track_id ≠ r.track_id) ∨ r' = r := by
  simp [upsert, List.mem_filter]

theorem nodup_map_upsert {β : Type} (f : Row → β)
    (hf : ∀ x y : Row, f x = f y → x.track_id = y.track_id)
    (s : Store) (r : Row) (h : (s.map f).Nodup) : ((upsert s r).map f).Nodup := by
  unfold upsert
  rw [List.map_append, List.nodup_append]
  refine ⟨List.Nodup.sublist (List.Sublist.map f (List.filter_sublist s)) h,
    List.nodup_singleton _, ?_⟩
  simp only [List.map_singleton, List.disjoint_singleton]
  intro hmem
  rcases List.mem_map.1 hmem with ⟨x, hx, hfx⟩
  rcases List.mem_filter.1 hx with ⟨-, hp⟩
  rw [bne_iff_ne] at hp
  exact hp (hf x r hfx)

theorem nodup_map_save {β : Type} (f : Row → β)
    (hf : ∀ x y : Row, f x = f y → x.track_id = y.track_id) :
    ∀ (tracks : List Track) (s : Store) (d : String),
      (s.map f).Nodup → ((save_tracks_to_db s tracks d).map f).Nodup
  | [], _, _, h => h
  | t :: ts, s, d, h =>
    nodup_map_save f hf ts (upsert s (toRow t d)) d (nodup_map_upsert f hf s _ h)

theorem save_decomp :
    ∀ (tracks : List Track) (s : Store) (d : String),
      save_tracks_to_db s tracks d =
        s.filter (fun r => !((tracks.map (fun t => t.id)).contains r.track_id)) ++
          save_tracks_to_db [] tracks d
  | [], s, d => by simp [save_tracks_to_db]
  | t :: ts, s, d => by
    rw [save_cons s t ts d, save_decomp ts (upsert s (toRow t d)) d]
    rw [save_cons [] t ts d, save_decomp ts (upsert [] (toRow t d)) d]
    rw [show upsert [] (toRow t d) = [toRow t d] from rfl]
    rw [upsert, List.filter_append, List.filter_filter, List.append_assoc]
    congr 1
    apply List.filter_congr
    intro a _
    simp only [toRow, List.map_cons, List.contains_cons, Bool.not_or, bne]
    cases h : a.track_id == t.id <;> simp [h]

theorem mem_save_cases :
    ∀ (tracks : List Track) (s : Store) (d : String) (r : Row),
      r ∈ save_tracks_to_db s tracks d →
        (r ∈ s ∧ r.track_id ∉ tracks.map (fun t => t.id)) ∨
          ∃ t ∈ tracks, r = toRow t d
  | [], _, _, _, h => Or.inl ⟨h, by simp⟩
  | t :: ts, s, d, r, h => by
    rw [save_cons s t ts d] at h
    rcases mem_save_cases ts (upsert s (toRow t d)) d r h with ⟨hmem, hnot⟩ | ⟨t', ht', rfl⟩
    · rcases (mem_upsert s (toRow t d) r).1 hmem with ⟨hs, hne⟩ | rfl
      · left
        refine ⟨hs, ?_⟩
        simp only [List.map_cons, List.mem_cons]
        rintro (h1 | h2)
        · exact hne h1
        · exact hnot h2
      · right
        exact ⟨t, List.mem_cons_self t ts, rfl⟩
    · right
      exact ⟨t', List.mem_cons_of_mem t ht', rfl⟩

/-! ### C2 -/

/-- The queryable id column of the snapshot table. -/
def trackIds (s : Store) : List String := s.map (fun r => r.track_id)

/-- C2: with `track_id` the sole primary key, every save keeps the store
free of duplicate `track_id`s across all fetch dates (at most one stored
row per id), and every track present in the saved list ends up stored under
the new `fetch_date` -- the previously stored date of a still-present track
does not survive, so only one fetch date's data survives per track id. -/
theorem c2_track_id_sole_upsert_key :
    (∀ (s : Store) (tracks : List Track) (d : String),
      (trackIds s).Nodup → (trackIds (save_tracks_to_db s tracks d)).Nodup) ∧
    (∀ (s : Store) (tracks : List Track) (d : String) (r : Row),
      r ∈ save_tracks_to_db s tracks d →
      r.track_id ∈ tracks.map (fun t => t.id) → r.fetch_date = d) := by
  constructor
  · intro s tracks d h
    exact nodup_map_save (fun r => r.track_id) (fun x y hxy => hxy) tracks s d h
  · intro s tracks d r hr hid
    rcases mem_save_cases tracks s d r hr with ⟨-, hnot⟩ | ⟨t, -, rfl⟩
    · exact absurd hid hnot
    · rfl

def storeC2 : Store :=
  [⟨"A", "NameA", "ArtistA", "t1", "2024-01-01"⟩,
   ⟨"B", "NameB", "ArtistB", "t1", "2024-01-01"⟩]

def tracksC2 : List Track :=
  [⟨"B", "NameB", "ArtistB", "t2"⟩, ⟨"D", "NameD", "ArtistD", "t2"⟩]

/-- Witness for C2: saving a second day over a two-row store keeps ids
unique, and the still-present track B is now stored under the new date. -/
theorem c2_track_id_sole_upsert_key_witness :
    (trackIds (save_tracks_to_db storeC2 tracksC2 "2024-01-02")).Nodup ∧
      (toRow ⟨"B", "NameB", "ArtistB", "t2"⟩ "2024-01-02").fetch_date = "2024-01-02" :=
  ⟨c2_track_id_sole_upsert_key.1 storeC2 tracksC2 "2024-01-02" (by decide),
   c2_track_id_sole_upsert_key.2 storeC2 tracksC2 "2024-01-02"
     (toRow ⟨"B", "NameB", "ArtistB", "t2"⟩ "2024-01-02") (by decide) (by decide)⟩

/-! ### C6 -/

/-- C6: saving the same track list under the same fetch date twice yields
exactly the same store as saving it once (not only the same queryable
state: the very same row list). -/
theorem c6_save_idempotent : ∀ (s : Store) (tracks : List Track) (d : String),
    save_tracks_to_db (save_tracks_to_db s tracks d) tracks d =
      save_tracks_to_db s tracks d := by
  intro s tracks d
  have hmem : ∀ r ∈ save_tracks_to_db [] tracks d,
      (!((tracks.map (fun t => t.id)).contains r.track_id)) = false := by
    intro r hr
    rcases mem_save_cases tracks [] d r hr with ⟨hmem, _⟩ | ⟨t, ht, rfl⟩
    · exact absurd hmem (List.not_mem_nil r)
    · rw [Bool.not_eq_false']
      exact List.elem_eq_true_of_mem (List.mem_map.2 ⟨t, ht, rfl⟩)
  have h0 : (save_tracks_to_db [] tracks d).filter
      (fun r => !((tracks.map (fun t => t.id)).contains r.track_id)) = [] := by
    rw [List.filter_eq_nil_iff]
    intro a ha
    rw [hmem a ha]
    simp
  have h1 := save_decomp tracks s d
  rw [save_decomp tracks (save_tracks_to_db s tracks d) d, h1,
    List.filter_append, List.filter_filter, h0]
  simp [Bool.and_self]

/-! ### C7 -/

/-- The conceptual row key of the spec: (fetch_date, track_id); the user is
fixed because each user has their own database file. -/
def rowKey (r : Row) : String × String := (r.fetch_date, r.track_id)

/-- C7: every save preserves the at-most-one-row-per-(fetch_date, track_id)
invariant, and an upsert whose row carries the `track_id` of an existing
row replaces that row: afterwards exactly the new row carries this id
(a fortiori exactly one row carries its (fetch_date, track_id) key). -/
theorem c7_upsert_replaces_same_key :
    (∀ (s : Store) (tracks : List Track) (d : String),
      (s.map rowKey).Nodup → ((save_tracks_to_db s tracks d).map rowKey).Nodup) ∧
    (∀ (s : Store) (r : Row),
      (upsert s r).filter (fun x => x.track_id == r.track_id) = [r]) := by
  constructor
  · intro s tracks d h
    exact nodup_map_save rowKey (fun x y hxy => congrArg Prod.snd hxy) tracks s d h
  · intro s r
    rw [upsert, List.filter_append, List.filter_filter]
    have h0 : s.filter (fun a => (a.track_id == r.track_id) &&
        (a.track_id != r.track_id)) = [] := by
      rw [List.filter_eq_nil_iff]
      intro a _
      cases h : a.track_id == r.track_id <;> simp [bne, h]
    rw [h0]
    simp

def storeC7 : Store :=
  [⟨"A", "NameA", "ArtistA", "t1", "2024-01-01"⟩,
   ⟨"B", "NameB", "ArtistB", "t1", "2024-01-01"⟩]

def tracksC7 : List Track := [⟨"A", "NameA2", "ArtistA", "t1"⟩]

/-- Witness for C7: re-saving track A on the same date keeps the
(fetch_date, track_id) keys duplicate-free. -/
theorem c7_upsert_replaces_same_key_witness :
    ((save_tracks_to_db storeC7 tracksC7 "2024-01-01").map rowKey).Nodup :=
  c7_upsert_replaces_same_key.1 storeC7 tracksC7 "2024-01-01" (by decide)

/-! ### C4 -/

def items50 : List PageItem := List.replicate 50 ⟨"id0", "name0", ["artist0"], "t0"⟩

def tracks50 : List Track := List.replicate 50 ⟨"id0", "name0", "artist0", "t0"⟩

/-- A service that reports a total of 120 tracks yet returns an empty page
at offset 50. -/
def svc120 : Nat → Option Page := fun offset =>
  if offset = 0 then some ⟨120, items50⟩
  else if offset = 50 then some ⟨120, []⟩
  else none

/-- C4: the fetch loop stops at the first empty page whatever total the
service reported (the conclusion does not depend on `total`), and on the
service that claims 120 tracks but delivers an empty page at offset 50 the
fetch returns exactly the 50 accumulated items. -/
theorem c4_fetch_stops_at_first_empty_page :
    (∀ (svc : Nat → Option Page) (total fuel offset : Nat) (acc : List Track),
      svc offset = some { total := total, items := [] } →
      get_liked_songs_aux svc (fuel + 1) offset acc = some (FetchResult.success acc)) ∧
    get_liked_songs svc120 2 = some (FetchResult.success tracks50) ∧
    tracks50.length = 50 := by
  refine ⟨?_, by decide, by decide⟩
  intro svc total fuel offset acc h
  unfold get_liked_songs_aux
  rw [h]
  simp

def svcC4 : Nat → Option Page := fun _ => some ⟨120, []⟩

/-- Witness for C4: a first page that is already empty ends the fetch with
no tracks, whatever the advertised total. -/
theorem c4_fetch_stops_at_first_empty_page_witness :
    get_liked_songs_aux svcC4 1 0 [] = some (FetchResult.success []) :=
  c4_fetch_stops_at_first_empty_page.1 svcC4 120 0 0 [] rfl

/-! ### C8 -/

/-- C8: a failing page request makes the whole fetch abort with exit
code 1 -- the result carries no tracks, so no partial list reaches the
caller -- and a fetch that exits ends the whole run: the remaining users
are never processed. -/
theorem c8_page_failure_fatal :
    (∀ (svc : Nat → Option Page) (fuel offset : Nat) (acc : List Track),
      svc offset = none →
      get_liked_songs_aux svc (fuel + 1) offset acc = some (FetchResult.exit 1)) ∧
    (∀ (fuel : Nat) (today : String) (u : UserData) (rest : List UserData) (c : Nat),
      get_liked_songs u.svc fuel = some (FetchResult.exit c) →
      runUsers fuel today (u :: rest) = some (RunResult.exited c)) := by
  constructor
  · intro svc fuel offset acc h
    unfold get_liked_songs_aux
    rw [h]
  · intro fuel today u rest c h
    unfold runUsers
    rw [h]

def svcC8 : Nat → Option Page := fun _ => none

def userC8 : UserData :=
  { svc := svcC8, store := [], email := "user@example.com", transport := Except.ok () }

/-- Witness for C8: the very first page request fails, the fetch exits with
code 1, and a run over this user (plus none after) exits with code 1. -/
theorem c8_page_failure_fatal_witness :
    get_liked_songs_aux svcC8 1 0 [] = some (FetchResult.exit 1) ∧
      runUsers 1 "2024-01-01" [userC8] = some (RunResult.exited 1) :=
  ⟨c8_page_failure_fatal.1 svcC8 0 0 [] rfl,
   c8_page_failure_fatal.2 1 "2024-01-01" userC8 [] 1 rfl⟩

/-! ### C9 -/

/-- C9: `send_email` turns a transport failure into a logged outcome
instead of an exception, and therefore the user loop completes with an
outcome for every user no matter what any user's transport does -- each
user's outcome is a function of that user's own data alone. -/
theorem c9_delivery_failure_isolated :
    (∀ (fuel : Nat) (today : String) (us : List UserData),
      (∀ u ∈ us, ∃ ts, get_liked_songs u.svc fuel = some (FetchResult.success ts)) →
      runUsers fuel today us =
        some (RunResult.completed (us.map (userOutcome fuel today)))) ∧
    (∀ e : String, send_email (Except.error e) = SendOutcome.errorLogged e) := by
  constructor
  · intro fuel today us
    induction us with
    | nil => intro _; rfl
    | cons u rest ih =>
      intro h
      rcases h u (List.mem_cons_self u rest) with ⟨ts, hts⟩
      have hrest := ih (fun v hv => h v (List.mem_cons_of_mem u hv))
      simp [runUsers, hts, hrest]
  · intro e
    rfl

def svcC9 : Nat → Option Page := fun _ => some ⟨0, []⟩

def userC9 : UserData :=
  { svc := svcC9,
    store := [⟨"X", "Song", "Artist", "t1", "2024-03-01"⟩,
              ⟨"X", "Song", "Artist", "t2", "2024-03-02"⟩],
    email := "user@example.com",
    transport := Except.error "smtp down" }

/-- Witness for C9: a user whose transport fails still gets processed to
completion; the failure is recorded as this user's outcome and the run
completes. -/
theorem c9_delivery_failure_isolated_witness :
    runUsers 1 "2024-03-03" [userC9] =
      some (RunResult.completed [UserOutcome.deliveryFailed "smtp down"]) :=
  c9_delivery_failure_isolated.1 1 "2024-03-03" [userC9]
    (fun u hu => by rw [List.mem_singleton] at hu; subst hu; exact ⟨[], rfl⟩)

/-! ### C3 -/

def storeC3 : Store :=
  [⟨"x", "Song", "Artist", "t", "2031-07-01"⟩,
   ⟨"y", "Tune", "Band", "t", "2031-07-02"⟩]

set_option maxRecDepth 16384 in
/-- Counterexample to C3 as stated: on a two-date store the produced report
is exactly the literal below, and neither of the two dates being compared
("2031-07-01", "2031-07-02") occurs anywhere in it -- the report's header
is the fixed greeting, not a header naming the dates (those are only
printed to the console at line 151). -/
theorem c3_header_counterexample :
    compare_tracks storeC3 "user@example.com" =
      (CompareResult.notified "user@example.com" "Spotify Liked Songs Updates"
        "Hi,\n\nHere are the changes to your Spotify Liked Songs:\n\nRemoved Tracks:\n- Song by Artist\n\nAdded Tracks:\n+ Tune by Band\n",
       storeC3) ∧
    ¬ ("2031-07-01".data <:+:
        "Hi,\n\nHere are the changes to your Spotify Liked Songs:\n\nRemoved Tracks:\n- Song by Artist\n\nAdded Tracks:\n+ Tune by Band\n".data) ∧
    ¬ ("2031-07-02".data <:+:
        "Hi,\n\nHere are the changes to your Spotify Liked Songs:\n\nRemoved Tracks:\n- Song by Artist\n\nAdded Tracks:\n+ Tune by Band\n".data) :=
  ⟨by decide, by decide, by decide⟩

/-! Substring helper lemmas for the report structure. -/

theorem data_pre_of_append (a b : String) : a.data <+: (a ++ b).data :=
  ⟨b.data, (String.data_append a b).symm⟩

theorem pre_append_right {a : List Char} {c : String} (w : String)
    (h : a <+: c.data) : a <+: (c ++ w).data := by
  rcases h with ⟨t, ht⟩
  exact ⟨t ++ w.data, by rw [String.data_append, ← ht, List.append_assoc]⟩

theorem data_inf_self (c : String) : c.data <:+: c.data := ⟨[], [], by simp⟩

theorem inf_append_right {a : List Char} {c : String} (w : String)
    (h : a <:+: c.data) : a <:+: (c ++ w).data := by
  rcases h with ⟨u, v, huv⟩
  exact ⟨u, v ++ w.data, by rw [String.data_append, ← huv]; simp [List.append_assoc]⟩

theorem inf_append_left {a : List Char} {c : String} (w : String)
    (h : a <:+: c.data) : a <:+: (w ++ c).data := by
  rcases h with ⟨u, v, huv⟩
  exact ⟨w.data ++ u, v, by rw [String.data_append, ← huv]; simp [List.append_assoc]⟩

theorem join_infix (sep : String) :
    ∀ (l : List String) (x : String), x ∈ l → x.data <:+: (joinStr sep l).data
  | [], x, h => absurd h (List.not_mem_nil x)
  | [y], x, h => by
    rw [List.mem_singleton] at h
    subst h
    exact data_inf_self x
  | y :: z :: rest, x, h => by
    rcases List.mem_cons.1 h with rfl | h2
    · rw [show joinStr sep (x :: z :: rest) = x ++ sep ++ joinStr sep (z :: rest) from rfl]
      exact inf_append_right _ (inf_append_right _ (data_inf_self x))
    · rcases join_infix sep (z :: rest) x h2 with ⟨u, v, huv⟩
      rw [show joinStr sep (y :: z :: rest) = y ++ sep ++ joinStr sep (z :: rest) from rfl]
      exact inf_append_left _ ⟨u, v, huv⟩

/-- C3 (amended): every produced report begins with the fixed greeting
header -- which does not name the two dates; those only go to the console
log -- followed by a removed section that lists each removed track as
"- name by artist" or is the literal "No tracks have been removed." when
the removed list is empty, and an added section that lists each added track
as "+ name by artist" or is the literal "No tracks have been added." when
the added list is empty. -/
theorem c3_amended_report_structure (removed added : List (String × String)) :
    ("Hi,\n\nHere are the changes to your Spotify Liked Songs:\n\n".data <+:
      (renderContent removed added).data) ∧
    (removed = [] →
      "No tracks have been removed.\n".data <:+: (renderContent removed added).data) ∧
    (∀ p ∈ removed,
      ("- " ++ p.1 ++ " by " ++ p.2).data <:+: (renderContent removed added).data) ∧
    (added = [] →
      "No tracks have been added.\n".data <:+: (renderContent removed added).data) ∧
    (∀ p ∈ added,
      ("+ " ++ p.1 ++ " by " ++ p.2).data <:+: (renderContent removed added).data) := by
  have hA : ("\nNo tracks have been added.\n" : String) =
      "\n" ++ "No tracks have been added.\n" := by decide
  rcases removed with _ | ⟨p0, ps⟩
  · rcases added with _ | ⟨q0, qs⟩
    · rw [show renderContent [] [] =
          "Hi,\n\nHere are the changes to your Spotify Liked Songs:\n\n" ++
            "No tracks have been removed.\n" ++ "\nNo tracks have been added.\n" from rfl]
      refine ⟨?_, ?_, ?_, ?_, ?_⟩
      · exact pre_append_right _ (data_pre_of_append _ _)
      · intro _
        exact inf_append_right _ (inf_append_left _ (data_inf_self _))
      · intro p hp
        exact absurd hp (List.not_mem_nil p)
      · intro _
        rw [hA]
        exact inf_append_left _ (inf_append_left _ (data_inf_self _))
      · intro p hp
        exact absurd hp (List.not_mem_nil p)
    · rw [show renderContent [] (q0 :: qs) =
          "Hi,\n\nHere are the changes to your Spotify Liked Songs:\n\n" ++
            "No tracks have been removed.\n" ++ "\nAdded Tracks:\n" ++
            joinStr "\n" ((q0 :: qs).map (fun t => "+ " ++ t.1 ++ " by " ++ t.2)) ++
            "\n" from rfl]
      refine ⟨?_, ?_, ?_, ?_, ?_⟩
      · exact pre_append_right _ (pre_append_right _
          (pre_append_right _ (data_pre_of_append _ _)))
      · intro _
        exact inf_append_right _ (inf_append_right _
          (inf_append_right _ (inf_append_left _ (data_inf_self _))))
      · intro p hp
        exact absurd hp (List.not_mem_nil p)
      · intro h
        exact absurd h (List.cons_ne_nil q0 qs)
      · intro p hp
        have hj := join_infix "\n"
          ((q0 :: qs).map (fun t => "+ " ++ t.1 ++ " by " ++ t.2))
          ("+ " ++ p.1 ++ " by " ++ p.2) (List.mem_map.2 ⟨p, hp, rfl⟩)
        exact inf_append_right _ (inf_append_left _ hj)
  · rcases added with _ | ⟨q0, qs⟩
    · rw [show renderContent (p0 :: ps) [] =
          "Hi,\n\nHere are the changes to your Spotify Liked Songs:\n\n" ++
            "Removed Tracks:\n" ++
            joinStr "\n" ((p0 :: ps).map (fun t => "- " ++ t.1 ++ " by " ++ t.2)) ++
            "\n" ++ "\nNo tracks have been added.\n" from rfl]
      refine ⟨?_, ?_, ?_, ?_, ?_⟩
      · exact pre_append_right _ (pre_append_right _
          (pre_append_right _ (data_pre_of_append _ _)))
      · intro h
        exact absurd h (List.cons_ne_nil p0 ps)
      · intro p hp
        have hj := join_infix "\n"
          ((p0 :: ps).map (fun t => "- " ++ t.1 ++ " by " ++ t.2))
          ("- " ++ p.1 ++ " by " ++ p.2) (List.mem_map.2 ⟨p, hp, rfl⟩)
        exact inf_append_right _ (inf_append_right _ (inf_append_left _ hj))
      · intro _
        rw [hA]
        exact inf_append_left _ (inf_append_left _ (data_inf_self _))
      · intro p hp
        exact absurd hp (List.not_mem_nil p)
    · rw [show renderContent (p0 :: ps) (q0 :: qs) =
          "Hi,\n\nHere are the changes to your Spotify Liked Songs:\n\n" ++
            "Removed Tracks:\n" ++
            joinStr "\n" ((p0 :: ps).map (fun t => "- " ++ t.1 ++ " by " ++ t.2)) ++
            "\n" ++ "\nAdded Tracks:\n" ++
            joinStr "\n" ((q0 :: qs).map (fun t => "+ " ++ t.1 ++ " by " ++ t.2)) ++
            "\n" from rfl]
      refine ⟨?_, ?_, ?_, ?_, ?_⟩
      · exact pre_append_right _ (pre_append_right _ (pre_append_right _
          (pre_append_right _ (pre_append_right _ (data_pre_of_append _ _)))))
      · intro h
        exact absurd h (List.cons_ne_nil p0 ps)
      · intro p hp
        have hj := join_infix "\n"
          ((p0 :: ps).map (fun t => "- " ++ t.1 ++ " by " ++ t.2))
          ("- " ++ p.1 ++ " by " ++ p.2) (List.mem_map.2 ⟨p, hp, rfl⟩)
        exact inf_append_right _ (inf_append_right _ (inf_append_right _
          (inf_append_right _ (inf_append_left _ hj))))
      · intro h
        exact absurd h (List.cons_ne_nil q0 qs)
      · intro p hp
        have hj := join_infix "\n"
          ((q0 :: qs).map (fun t => "+ " ++ t.1 ++ " by " ++ t.2))
          ("+ " ++ p.1 ++ " by " ++ p.2) (List.mem_map.2 ⟨p, hp, rfl⟩)
        exact inf_append_right _ (inf_append_left _ hj)

/-- Witness for the amended C3 on a one-removal, zero-addition report. -/
theorem c3_amended_report_structure_witness :
    (("- " ++ "Song" ++ " by " ++ "Artist").data <:+:
      (renderContent [("Song", "Artist")] []).data) ∧
    ("No tracks have been added.\n".data <:+:
      (renderContent [("Song", "Artist")] []).data) :=
  ⟨(c3_amended_report_structure [("Song", "Artist")] []).2.2.1 ("Song", "Artist")
      (List.mem_singleton.2 rfl),
   (c3_amended_report_structure [("Song", "Artist")] []).2.2.2.1 rfl⟩
